import Mathlib

/-!
Shallow embedding of the Zadig `PluginJobCtl` job controller
(`pkg/microservice/aslan/core/workflow/service/workflow/job/jobcontroller`,
plugin job file) together with the collaborator interfaces it drives.

The controller code itself (NewPluginsJobCtl, prepare, Run, run, wait,
complete, SaveInfo) is translated from the source.  The collaborators it
calls (cluster client resolver, job lifecycle operations, registry secret
provisioner, output/log harvester) live outside the given sources and are
modelled as an explicit oracle environment, following the external
interfaces of the spec.  Cluster state (the set of live Jobs) is threaded
explicitly so that delete-before-create can be reasoned about, and a ghost
event trace records which phases ran.
-/

namespace Zadig

/-- Modelled from the spec: job/task status values of the controller state
machine (Pending/Created → Running → Succeeded, Failed, Timeout, Cancelled);
the config package defining the status string constants is not part of the
given sources. -/
inductive Status where
  | created
  | waiting
  | running
  | passed
  | failed
  | timeout
  | cancelled
  | skipped
  deriving DecidableEq, Repr

/-- Modelled from the spec: the string form of a status (statuses are string
constants in the config package). -/
def statusString : Status → String
  | .created => "created"
  | .waiting => "waiting"
  | .running => "running"
  | .passed => "passed"
  | .failed => "failed"
  | .timeout => "timeout"
  | .cancelled => "cancelled"
  | .skipped => "skipped"

/-- Modelled from the spec: setting.LocalClusterID, the identifier of the
local cluster (the setting package is not part of the given sources; the
spec scenario names it "local"). -/
def localClusterID : String := "local"

/-- Modelled from the spec: setting.MinRequest, the minimum resource tier
constant (a named, non-empty tier identifier). -/
def minRequest : String := "min"

/-- Modelled from the spec: setting.AttachedClusterNamespace, the fixed
namespace used on attached (non-local) clusters. -/
def attachedClusterNamespace : String := "koderover-agent"

/-- Modelled from the source type of CustomLabels/CustomAnnotations values:
an interface{} payload that the controller asserts to be a string. -/
inductive GoValue where
  | str (s : String)
  | other (tag : Nat)
  deriving DecidableEq, Repr

/-- Projection used only to phrase theorems: the string carried by a
GoValue, with "" for a non-string payload. -/
def GoValue.strValue : GoValue → String
  | .str s => s
  | .other _ => ""

/-- A key/value pair of CustomLabels or CustomAnnotations. -/
structure KV where
  key : String
  value : GoValue
  deriving DecidableEq, Repr

/-- Go map assignment m[k] = v on a map represented as an association list:
overwrite the binding when k is present, otherwise append it. -/
def mapInsert (m : List (String × String)) (k v : String) : List (String × String) :=
  if m.any (fun p => p.1 = k) then
    m.map (fun p => if p.1 = k then (k, v) else p)
  else
    m ++ [(k, v)]

/-- The loops of run that build customLabel/customAnnotation maps: each entry
value goes through the unchecked assertion lb.Value.(string); a non-string
value makes the assertion fail (a Go panic), modelled as none. -/
def buildStringMap (l : List KV) : Option (List (String × String)) :=
  l.foldlM
    (fun m kv =>
      match kv.value with
      | .str s => some (mapInsert m kv.key s)
      | .other _ => none)
    []

/-- The map obtained by inserting exactly the given pairs in order (used to
state what buildStringMap produces when every value is a string). -/
def stringMapOf (l : List KV) : List (String × String) :=
  l.foldl (fun m kv => mapInsert m kv.key kv.value.strValue) []

/-- JobTaskPluginSpec.Properties (commonmodels.JobProperties): the fields
the controller reads or writes. -/
structure JobProperties where
  timeout : Int
  resourceRequest : String
  resReqSpec : Nat
  clusterID : String
  nameSpace : String
  registries : List String
  customLabels : List KV
  customAnnotations : List KV
  deriving DecidableEq, Repr

/-- PluginTemplate: the plugin part of the spec; only Image is read here. -/
structure PluginTemplate where
  image : String
  deriving DecidableEq, Repr

/-- commonmodels.JobTaskPluginSpec. -/
structure JobTaskPluginSpec where
  properties : JobProperties
  plugin : PluginTemplate
  deriving DecidableEq, Repr

/-- The Go zero value of JobProperties. -/
def zeroJobProperties : JobProperties :=
  { timeout := 0, resourceRequest := "", resReqSpec := 0, clusterID := ""
    nameSpace := "", registries := [], customLabels := [], customAnnotations := [] }

/-- The Go zero value of JobTaskPluginSpec (the freshly allocated struct in
NewPluginsJobCtl before decoding). -/
def zeroPluginSpec : JobTaskPluginSpec :=
  { properties := zeroJobProperties, plugin := { image := "" } }

/-- commonmodels.JobTask: the fields the controller reads or writes. -/
structure JobTask where
  jobType : String
  k8sJobName : String
  name : String
  status : Status
  startTime : Int
  endTime : Int
  error : String
  deriving DecidableEq, Repr

/-- commonmodels.WorkflowTaskCtx: read-only workflow context. -/
structure WorkflowTaskCtx where
  workflowName : String
  workflowDisplayName : String
  taskID : Int
  projectName : String
  deriving DecidableEq, Repr

/-- JobLabel: the (job type, K8s job name) key used to find and delete the
corresponding cluster Job. -/
structure JobLabel where
  jobType : String
  jobName : String
  deriving DecidableEq, Repr

/-- A live cluster Job, identified by its namespace and its JobLabel. -/
structure ClusterJob where
  nameSpace : String
  label : JobLabel
  deriving DecidableEq, Repr

/-- Ghost events recording which observable effects each phase performed. -/
inductive Event where
  | deletedJob (ns : String) (lbl : JobLabel)
  | createdSecrets (ns : String)
  | createdJob (ns : String) (lbl : JobLabel)
  | waitedStart
  | acked
  | waitedEnd
  | outputTried
  | saveAttempted
  | savedLog
  | scheduledAsyncDelete (ns : String) (lbl : JobLabel)
  deriving DecidableEq, Repr

/-- PluginJobCtl.prepare: fill defaults for timeout, resource tier and
cluster ID.  Pure defaulting, no failure path. -/
def prepare (sp : JobTaskPluginSpec) : JobTaskPluginSpec :=
  let p := sp.properties
  let p := if p.timeout ≤ 0 then { p with timeout := 600 } else p
  let p := if p.resourceRequest = "" then { p with resourceRequest := minRequest } else p
  let p := if p.clusterID = "" then { p with clusterID := localClusterID } else p
  { sp with properties := p }

/-- The mutable state the controller threads through its phases: the task,
its plugin spec (the struct c.jobTaskSpec points at), the workflow context,
the resolved clients, the live cluster Jobs, the outputs harvested into the
workflow context, a ghost count of ack() invocations and a ghost event
trace. -/
structure CtlState where
  job : JobTask
  jobTaskSpec : JobTaskPluginSpec
  wfCtx : WorkflowTaskCtx
  kubeclient : Option Nat
  apiServer : Option Nat
  cluster : List ClusterJob
  outputs : List (String × String)
  ackCount : Nat
  events : List Event
  deriving DecidableEq, Repr

/-- Modelled from the spec: the jobcontroller logError helper logs the
message and attaches it to the job (sets the job error). -/
def logError (s : CtlState) (msg : String) : CtlState :=
  { s with job.error := msg }

/-- Modelled from the spec, external interfaces of the controller: the
cluster client resolver, job spec builder, job lifecycle operations,
registry secret provisioner and output/log harvester, together with the
process configuration (hub server address, configured namespace).  Failure
results are oracle-chosen; a field none means the operation succeeds. -/
structure Env where
  hubServerAddr : String
  configNamespace : String
  getK8sClients : String → String → Except String (Nat × Nat)
  getMatchedRegistries : String → List String → List String
  buildPlainJob : String → String →
    List (String × String) → List (String × String) → Except String Nat
  ensureDeleteJob : String → JobLabel → Option String
  createOrUpdateRegistrySecrets : String → List String → Option String
  createJob : String → JobLabel → Option String
  waitJobStart : Status × Option String
  waitPlainJobEnd : Status
  getJobOutput : Except String (List (String × String))
  saveLogErr : Option String

/-- The outcome of PluginJobCtl.run: a normal error return, success, or a
Go panic raised by a failed type assertion. -/
inductive RunOutcome where
  | panicked
  | failed (e : String)
  | ok
  deriving DecidableEq, Repr

/-- The JobLabel run and complete build from the task: (job type, K8s job
name). -/
def taskLabel (s : CtlState) : JobLabel :=
  { jobType := s.job.jobType, jobName := s.job.k8sJobName }

/-- The namespace run computes from the cluster ID: the configured
namespace on the local cluster, the fixed attached-cluster namespace
otherwise. -/
def runNamespace (env : Env) (s : CtlState) : String :=
  if s.jobTaskSpec.properties.clusterID = localClusterID then
    env.configNamespace
  else
    attachedClusterNamespace

/-- PluginJobCtl.run: compute the namespace, resolve the cluster clients,
resolve registries, build the label/annotation maps (unchecked string
assertions), build the Job manifest, delete any existing Job with the same
JobLabel, provision registry secrets, create the Job.  Every error aborts
with that error; the secret step returns the wrapped message, the others
return the collaborator error itself. -/
def runStep (env : Env) (s0 : CtlState) : CtlState × RunOutcome :=
  let ns := runNamespace env s0
  let s := { s0 with jobTaskSpec.properties.nameSpace := ns }
  match env.getK8sClients env.hubServerAddr s.jobTaskSpec.properties.clusterID with
  | .error e => (logError s e, .failed e)
  | .ok clients =>
    let s := { s with kubeclient := some clients.1, apiServer := some clients.2 }
    let jobLabel := taskLabel s
    let s := { s with jobTaskSpec.properties.registries :=
      env.getMatchedRegistries s.jobTaskSpec.plugin.image s.jobTaskSpec.properties.registries }
    match buildStringMap s.jobTaskSpec.properties.customLabels with
    | none => (s, .panicked)
    | some customLabel =>
    match buildStringMap s.jobTaskSpec.properties.customAnnotations with
    | none => (s, .panicked)
    | some annotationMap =>
    match env.buildPlainJob s.job.k8sJobName s.jobTaskSpec.properties.resourceRequest
        customLabel annotationMap with
    | .error e => (logError s ("create job context error: " ++ e), .failed e)
    | .ok _manifest =>
    match env.ensureDeleteJob ns jobLabel with
    | some e => (logError s ("delete job error: " ++ e), .failed e)
    | none =>
    let s := { s with
      cluster := s.cluster.filter fun j => !decide (j.nameSpace = ns ∧ j.label = jobLabel)
      events := s.events ++ [Event.deletedJob ns jobLabel] }
    match env.createOrUpdateRegistrySecrets ns s.jobTaskSpec.properties.registries with
    | some e =>
      (logError s ("create secret error: " ++ e), .failed ("create secret error: " ++ e))
    | none =>
    let s := { s with events := s.events ++ [Event.createdSecrets ns] }
    match env.createJob ns jobLabel with
    | some e => (logError s ("create job error: " ++ e), .failed e)
    | none =>
    ({ s with
        cluster := s.cluster ++ [{ nameSpace := ns, label := jobLabel }]
        events := s.events ++ [Event.createdJob ns jobLabel] }, .ok)

/-- PluginJobCtl.wait: poll for the job start, store the resulting status;
if it is Running, fire ack() once and poll to the end, otherwise return
early. -/
def waitStep (env : Env) (s : CtlState) : CtlState :=
  let startStatus := env.waitJobStart.1
  let s := { s with job.status := startStatus, events := s.events ++ [Event.waitedStart] }
  if s.job.status = Status.running then
    let s := { s with ackCount := s.ackCount + 1, events := s.events ++ [Event.acked] }
    { s with job.status := env.waitPlainJobEnd, events := s.events ++ [Event.waitedEnd] }
  else
    s

/-- PluginJobCtl.complete: schedule (deferred, fire-and-forget) deletion of
the cluster Job; harvest outputs from the pod termination message, a
failure only sets the job error; save container logs, a failure sets the
job error only when it is still empty and returns early.  The deferred
deletion is scheduled on every path. -/
def completeStep (env : Env) (s : CtlState) : CtlState :=
  let jobLabel := taskLabel s
  let ns := s.jobTaskSpec.properties.nameSpace
  let s1 :=
    match env.getJobOutput with
    | .error e => { s with job.error := e, events := s.events ++ [Event.outputTried] }
    | .ok outs => { s with outputs := outs, events := s.events ++ [Event.outputTried] }
  let s2 :=
    match env.saveLogErr with
    | some e =>
      if s1.job.error = "" then
        { s1 with job.error := e, events := s1.events ++ [Event.saveAttempted] }
      else
        { s1 with events := s1.events ++ [Event.saveAttempted] }
    | none => { s1 with events := s1.events ++ [Event.saveAttempted, Event.savedLog] }
  { s2 with events := s2.events ++ [Event.scheduledAsyncDelete ns jobLabel] }

/-- The prepare call at the head of Run, acting on the controller state. -/
def prepareState (s : CtlState) : CtlState :=
  { s with jobTaskSpec := prepare s.jobTaskSpec }

/-- PluginJobCtl.Run: prepare, then run; on a run error (or a panic
unwinding) wait and complete are skipped, otherwise wait then complete. -/
def RunCtl (env : Env) (s0 : CtlState) : CtlState :=
  match runStep env (prepareState s0) with
  | (s, .ok) => completeStep env (waitStep env s)
  | (s, _) => s

/-- commonmodels.JobInfo: the persisted terminal record. -/
structure JobInfo where
  type : String
  workflowName : String
  workflowDisplayName : String
  taskID : Int
  productName : String
  startTime : Int
  endTime : Int
  duration : Int
  status : String
  deriving DecidableEq, Repr

/-- PluginJobCtl.SaveInfo: the JobInfo record handed to the terminal-record
store (Create); the store itself is an external collaborator. -/
def SaveInfo (s : CtlState) : JobInfo :=
  { type := s.job.jobType
    workflowName := s.wfCtx.workflowName
    workflowDisplayName := s.wfCtx.workflowDisplayName
    taskID := s.wfCtx.taskID
    productName := s.wfCtx.projectName
    startTime := s.job.startTime
    endTime := s.job.endTime
    duration := s.job.endTime - s.job.startTime
    status := statusString s.job.status }

/-- The type-erased job spec payload held in JobTask.Spec before the
controller decodes it. -/
inductive ErasedSpec where
  | plugin (sp : JobTaskPluginSpec)
  | foreign (tag : Nat)
  deriving DecidableEq, Repr

/-- Modelled from the spec: the commonmodels.IToi decode of the type-erased
payload into the concrete plugin spec struct, failing on a shape
mismatch. -/
def decodePluginSpec : ErasedSpec → Except String JobTaskPluginSpec
  | .plugin sp => .ok sp
  | .foreign _ => .error "cannot decode job spec"

/-- The result of NewPluginsJobCtl: the value stored back into job.Spec and
the jobTaskSpec field of the controller (aliases of one struct in Go). -/
structure NewCtlResult where
  jobSpecAfter : JobTaskPluginSpec
  ctlJobTaskSpec : JobTaskPluginSpec
  deriving DecidableEq, Repr

/-- NewPluginsJobCtl as written: decode into a freshly allocated zero spec,
on failure only log (the zero value remains), unconditionally replace
job.Spec with the decoded struct and return a constructed controller. -/
def newPluginsJobCtl (payload : ErasedSpec) : NewCtlResult :=
  let jobTaskSpec :=
    match decodePluginSpec payload with
    | .ok sp => sp
    | .error _ => zeroPluginSpec
  { jobSpecAfter := jobTaskSpec, ctlJobTaskSpec := jobTaskSpec }

/-- Modelled from the spec: the constructor the design notes call for, with
a decode step that fails with a typed error on shape mismatch instead of
proceeding with a zero-valued spec. -/
def newPluginsJobCtlSpecced (payload : ErasedSpec) : Except String NewCtlResult :=
  match decodePluginSpec payload with
  | .ok sp => .ok { jobSpecAfter := sp, ctlJobTaskSpec := sp }
  | .error e => .error e

/-- Number of live cluster Jobs carrying the given namespace and label. -/
def countJobs (cluster : List ClusterJob) (ns : String) (lbl : JobLabel) : Nat :=
  cluster.countP fun j => decide (j.nameSpace = ns ∧ j.label = lbl)

/-- A concrete environment in which every collaborator succeeds. -/
def okEnv : Env :=
  { hubServerAddr := "hub"
    configNamespace := "zadig-ns"
    getK8sClients := fun _ _ => .ok (1, 2)
    getMatchedRegistries := fun _ rs => rs
    buildPlainJob := fun _ _ _ _ => .ok 0
    ensureDeleteJob := fun _ _ => none
    createOrUpdateRegistrySecrets := fun _ _ => none
    createJob := fun _ _ => none
    waitJobStart := (Status.running, none)
    waitPlainJobEnd := Status.passed
    getJobOutput := .ok [("RESULT", "ok")]
    saveLogErr := none }

/-- okEnv, except that the job never reaches Running before the deadline. -/
def neverRunningEnv : Env :=
  { okEnv with waitJobStart := (Status.failed, none) }

/-- okEnv, except that cluster client resolution fails. -/
def clientErrEnv : Env :=
  { okEnv with getK8sClients := fun _ _ => .error "cluster unreachable" }

/-- okEnv, except that the container-log save fails. -/
def saveFailEnv : Env :=
  { okEnv with saveLogErr := some "log upload failed" }

/-- A concrete task. -/
def baseJob : JobTask :=
  { jobType := "plugin", k8sJobName := "job-1", name := "step-1"
    status := Status.created, startTime := 100, endTime := 160, error := "" }

/-- A concrete plugin spec with every defaultable field unset, as in the
spec scenario. -/
def baseSpec : JobTaskPluginSpec :=
  { properties := zeroJobProperties, plugin := { image := "busybox" } }

/-- A concrete workflow context. -/
def baseCtx : WorkflowTaskCtx :=
  { workflowName := "wf", workflowDisplayName := "WF", taskID := 7
    projectName := "proj" }

/-- A concrete initial controller state whose cluster already holds two
stale Jobs with the task's JobLabel in the target namespace. -/
def baseState : CtlState :=
  { job := baseJob, jobTaskSpec := baseSpec, wfCtx := baseCtx
    kubeclient := none, apiServer := none
    cluster :=
      [ { nameSpace := "zadig-ns", label := { jobType := "plugin", jobName := "job-1" } }
        , { nameSpace := "zadig-ns", label := { jobType := "plugin", jobName := "job-1" } } ]
    outputs := [], ackCount := 0, events := [] }

/-- baseState with its spec already prepared (as run sees it inside Run). -/
def preparedState : CtlState := prepareState baseState

/-- baseState carrying a custom label whose value is not a string. -/
def badLabelState : CtlState :=
  { preparedState with
      jobTaskSpec.properties.customLabels := [{ key := "team", value := GoValue.other 0 }] }

/-- Whether an event belongs to the run phase (delete, secrets, create) as
opposed to the wait or complete phases. -/
def isRunEvent : Event → Bool
  | .deletedJob _ _ => true
  | .createdSecrets _ => true
  | .createdJob _ _ => true
  | _ => false

section Lemmas

/-- prepare, written out as three independent conditional fields. -/
theorem prepare_eq (sp : JobTaskPluginSpec) :
    prepare sp =
      { sp with properties := { sp.properties with
          timeout := if sp.properties.timeout ≤ 0 then 600 else sp.properties.timeout
          resourceRequest :=
            if sp.properties.resourceRequest = "" then minRequest
            else sp.properties.resourceRequest
          clusterID :=
            if sp.properties.clusterID = "" then localClusterID
            else sp.properties.clusterID } } := by
  unfold prepare
  by_cases h1 : sp.properties.timeout ≤ 0 <;>
    by_cases h2 : sp.properties.resourceRequest = "" <;>
      by_cases h3 : sp.properties.clusterID = "" <;>
        simp [h1, h2, h3]

/-- No job matching a label survives the filter deleting that label. -/
theorem countJobs_filter_self (l : List ClusterJob) (ns : String) (lbl : JobLabel) :
    countJobs (l.filter fun j => !decide (j.nameSpace = ns ∧ j.label = lbl)) ns lbl = 0 := by
  rw [countJobs, List.countP_eq_zero]
  intro j hj
  rcases List.mem_filter.1 hj with ⟨_, hpred⟩
  simp only [Bool.not_eq_true', decide_eq_false_iff_not, not_and] at hpred
  simpa using hpred

/-- The generalized form of buildStringMap when every value is a string. -/
theorem foldStringMap_total (l : List KV)
    (h : ∀ kv ∈ l, ∃ str, kv.value = GoValue.str str) :
    ∀ m : List (String × String),
      (l.foldlM
        (fun m kv =>
          match kv.value with
          | .str s => some (mapInsert m kv.key s)
          | .other _ => none) m)
      = some (l.foldl (fun m kv => mapInsert m kv.key kv.value.strValue) m) := by
  induction l with
  | nil => intro m; rfl
  | cons kv rest ih =>
    intro m
    obtain ⟨str, hstr⟩ := h kv (List.mem_cons_self kv rest)
    have hrest : ∀ kv' ∈ rest, ∃ str, kv'.value = GoValue.str str :=
      fun kv' h' => h kv' (List.mem_cons_of_mem _ h')
    simp [List.foldlM_cons, hstr, GoValue.strValue, Option.bind, ih hrest]

/-- completeStep leaves status, ack count and the spec untouched. -/
theorem completeStep_frame (env : Env) (s : CtlState) :
    (completeStep env s).job.status = s.job.status ∧
    (completeStep env s).ackCount = s.ackCount ∧
    (completeStep env s).jobTaskSpec = s.jobTaskSpec := by
  unfold completeStep
  rcases env.getJobOutput with e | outs <;>
    rcases env.saveLogErr with _ | e' <;>
      simp <;> split <;> simp

/-- waitStep adds at most one ack, and exactly one precisely when the
start poll reports Running. -/
theorem waitStep_ack (env : Env) (s : CtlState) :
    (waitStep env s).ackCount = s.ackCount + (if env.waitJobStart.1 = Status.running then 1 else 0) := by
  unfold waitStep
  split <;> simp_all

/-- Frame of run: whatever the outcome, run never touches the task status,
the ack count, the harvested outputs or the workflow context, and every
event it appends is a run-phase event. -/
theorem runStep_frame (env : Env) (s s' : CtlState) (out : RunOutcome)
    (h : runStep env s = (s', out)) :
    s'.job.status = s.job.status ∧
    s'.ackCount = s.ackCount ∧
    s'.outputs = s.outputs ∧
    s'.wfCtx = s.wfCtx ∧
    ∀ ev ∈ s'.events, ev ∈ s.events ∨ isRunEvent ev = true := by
  simp only [runStep] at h
  repeat' split at h
  all_goals
    simp only [Prod.mk.injEq, logError] at h
  all_goals
    obtain ⟨h1, -⟩ := h
  all_goals
    subst h1
  all_goals
    refine ⟨rfl, rfl, rfl, rfl, ?_⟩
  all_goals
    intro ev hev
  all_goals
    simp only [List.mem_append, List.mem_singleton] at hev
  all_goals
    try casesm* _ ∨ _
  all_goals first
    | exact Or.inl (by assumption)
    | (subst_vars; simp [isRunEvent])

end Lemmas

/-- Counting distributes over the two cluster fragments. -/
theorem countJobs_append (l1 l2 : List ClusterJob) (ns : String) (lbl : JobLabel) :
    countJobs (l1 ++ l2) ns lbl = countJobs l1 ns lbl + countJobs l2 ns lbl := by
  simp [countJobs, List.countP_append]

/-- C1: a successful run leaves exactly one live cluster Job with the
task's JobLabel in the target namespace, and its event trace is
unconditionally delete, then secrets, then create. -/
theorem c1_delete_before_create (env : Env) (s s' : CtlState)
    (h : runStep env s = (s', RunOutcome.ok)) :
    countJobs s'.cluster (runNamespace env s) (taskLabel s) = 1 ∧
    s'.events = s.events ++
      [Event.deletedJob (runNamespace env s) (taskLabel s),
       Event.createdSecrets (runNamespace env s),
       Event.createdJob (runNamespace env s) (taskLabel s)] := by
  simp only [runStep] at h
  repeat' split at h
  all_goals
    simp only [Prod.mk.injEq, reduceCtorEq, and_false, eq_self_iff_true, and_true] at h
  subst h
  constructor
  · simp only [taskLabel]
    rw [countJobs_append, countJobs_filter_self]
    simp [countJobs]
  · simp [taskLabel, List.append_assoc]

/-- Witness for C1 on a concrete all-success environment starting from a
cluster already holding two stale Jobs with the same label. -/
theorem c1_delete_before_create_witness :
    countJobs (runStep okEnv preparedState).1.cluster
      (runNamespace okEnv preparedState) (taskLabel preparedState) = 1 :=
  (c1_delete_before_create okEnv preparedState
    (runStep okEnv preparedState).1 (by decide)).1

/-- C3: run never advances the task status whatever happens; when run fails
with an error, Run stops at run's final state (wait and complete are
skipped, so no ack and no wait or complete events), and specifically when
cluster client resolution fails run returns that error, the error is
attached to the job, and status, ack count and events are untouched. -/
theorem c3_run_failure (env : Env) (s : CtlState) :
    (∀ s' out, runStep env (prepareState s) = (s', out) →
      s'.job.status = s.job.status) ∧
    (∀ s' e, runStep env (prepareState s) = (s', RunOutcome.failed e) →
      RunCtl env s = s' ∧ s'.ackCount = s.ackCount ∧ s'.outputs = s.outputs ∧
      ∀ ev ∈ s'.events, ev ∈ s.events ∨ isRunEvent ev = true) ∧
    (∀ e, env.getK8sClients env.hubServerAddr
        (prepare s.jobTaskSpec).properties.clusterID = Except.error e →
      (runStep env (prepareState s)).2 = RunOutcome.failed e ∧
      (RunCtl env s).job.error = e ∧
      (RunCtl env s).job.status = s.job.status ∧
      (RunCtl env s).ackCount = s.ackCount ∧
      (RunCtl env s).events = s.events) := by
  refine ⟨?_, ?_, ?_⟩
  · intro s' out h
    have hf := runStep_frame env (prepareState s) s' out h
    simpa [prepareState] using hf.1
  · intro s' e h
    have hf := runStep_frame env (prepareState s) s' (RunOutcome.failed e) h
    refine ⟨by simp only [RunCtl, h], ?_, ?_, ?_⟩
    · simpa [prepareState] using hf.2.1
    · simpa [prepareState] using hf.2.2.1
    · intro ev hev
      simpa [prepareState] using hf.2.2.2.2 ev hev
  · intro e hc
    simp only [RunCtl, runStep, prepareState, logError]
    simp [hc]

/-- Witness for C3 on a concrete environment whose cluster client
resolution fails. -/
theorem c3_run_failure_witness :
    (runStep clientErrEnv (prepareState baseState)).2 =
      RunOutcome.failed "cluster unreachable" ∧
    (RunCtl clientErrEnv baseState).job.error = "cluster unreachable" ∧
    (RunCtl clientErrEnv baseState).job.status = baseState.job.status ∧
    (RunCtl clientErrEnv baseState).events = baseState.events := by
  have h := (c3_run_failure clientErrEnv baseState).2.2 "cluster unreachable" rfl
  exact ⟨h.1, h.2.1, h.2.2.1, h.2.2.2.2⟩

/-- C4 counterexample: a concrete execution in which the start poll never
reports Running: ack() is indeed never invoked, yet Run still reaches
complete (complete's harvest and deferred-cleanup events appear), refuting
the claim that complete is not reached. -/
theorem c4_counterexample :
    neverRunningEnv.waitJobStart.1 ≠ Status.running ∧
    (RunCtl neverRunningEnv baseState).ackCount = 0 ∧
    Event.outputTried ∈ (RunCtl neverRunningEnv baseState).events ∧
    Event.scheduledAsyncDelete "zadig-ns" { jobType := "plugin", jobName := "job-1" } ∈
      (RunCtl neverRunningEnv baseState).events := by
  decide

/-- C4 amended: when the start poll never reports Running, ack() is never
invoked and wait returns early without the completion-wait phase (Run still
proceeds to complete); ack() is invoked at most once per Run, and an ack
happens only upon the job reaching Running. -/
theorem c4_ack_gating (env : Env) (s : CtlState) :
    (env.waitJobStart.1 ≠ Status.running →
      (waitStep env s).ackCount = s.ackCount ∧
      (waitStep env s).job.status = env.waitJobStart.1 ∧
      (waitStep env s).events = s.events ++ [Event.waitedStart]) ∧
    (env.waitJobStart.1 = Status.running →
      (waitStep env s).ackCount = s.ackCount + 1) ∧
    ((waitStep env s).ackCount ≠ s.ackCount → env.waitJobStart.1 = Status.running) ∧
    (RunCtl env s).ackCount ≤ s.ackCount + 1 := by
  refine ⟨?_, ?_, ?_, ?_⟩
  · intro h
    unfold waitStep
    simp [h]
  · intro h
    rw [waitStep_ack, h]
    simp
  · intro h
    by_contra hn
    rw [waitStep_ack] at h
    simp [hn] at h
  · rcases hr : runStep env (prepareState s) with ⟨s1, out⟩
    have hf := runStep_frame env (prepareState s) s1 out hr
    have hack : s1.ackCount = s.ackCount := by simpa [prepareState] using hf.2.1
    cases out with
    | ok =>
      have h1 : RunCtl env s = completeStep env (waitStep env s1) := by
        simp only [RunCtl, hr]
      rw [h1, (completeStep_frame env (waitStep env s1)).2.1, waitStep_ack, hack]
      split <;> simp
    | failed e =>
      have h1 : RunCtl env s = s1 := by simp only [RunCtl, hr]
      rw [h1, hack]
      omega
    | panicked =>
      have h1 : RunCtl env s = s1 := by simp only [RunCtl, hr]
      rw [h1, hack]
      omega

/-- Witness for C4 amended at concrete environments. -/
theorem c4_ack_gating_witness :
    (waitStep neverRunningEnv preparedState).ackCount = preparedState.ackCount ∧
    (waitStep okEnv preparedState).ackCount = preparedState.ackCount + 1 :=
  ⟨((c4_ack_gating neverRunningEnv preparedState).1 (by decide)).1,
   (c4_ack_gating okEnv preparedState).2.1 (by decide)⟩

/-- C5: when the container-log save fails, complete attaches the log-save
error only if the job error is still empty at that point (an earlier
extraction error, when non-empty, is the one retained), the log save is
still attempted after an extraction failure, a successful extraction's
outputs are retained, and complete returns early: its trace is exactly the
harvest attempt, the save attempt and the deferred cleanup. -/
theorem c5_log_save_failure (env : Env) (s : CtlState) (e : String)
    (hsave : env.saveLogErr = some e) :
    (completeStep env s).events = s.events ++
      [Event.outputTried, Event.saveAttempted,
       Event.scheduledAsyncDelete s.jobTaskSpec.properties.nameSpace (taskLabel s)] ∧
    (∀ outs, env.getJobOutput = Except.ok outs → (completeStep env s).outputs = outs) ∧
    (∀ outs, env.getJobOutput = Except.ok outs → s.job.error = "" →
      (completeStep env s).job.error = e) ∧
    (∀ outs, env.getJobOutput = Except.ok outs → s.job.error ≠ "" →
      (completeStep env s).job.error = s.job.error) ∧
    (∀ e0, env.getJobOutput = Except.error e0 → e0 ≠ "" →
      (completeStep env s).job.error = e0) := by
  unfold completeStep
  rcases hout : env.getJobOutput with e0 | outs <;>
    simp only [hout, hsave] <;>
      split_ifs with herr <;>
        simp_all [taskLabel, List.append_assoc]

/-- Witness for C5 on a concrete environment whose log save fails after a
successful extraction. -/
theorem c5_log_save_failure_witness :
    (completeStep saveFailEnv preparedState).job.error = "log upload failed" ∧
    (completeStep saveFailEnv preparedState).outputs = [("RESULT", "ok")] := by
  have h := c5_log_save_failure saveFailEnv preparedState "log upload failed" rfl
  exact ⟨h.2.2.1 [("RESULT", "ok")] rfl rfl, h.2.1 [("RESULT", "ok")] rfl⟩

/-- C2: prepare sets Timeout to 600 when Timeout ≤ 0, ResourceRequest to
the minimum tier when unset and ClusterID to the local cluster ID when
empty; on the scenario spec (Timeout 0, ClusterID "", image busybox) the
result has Timeout 600, ClusterID the local cluster ID and ResourceRequest
the minimum tier; all other spec fields are left unchanged. -/
theorem c2_prepare_defaults (sp : JobTaskPluginSpec) :
    (sp.properties.timeout ≤ 0 → (prepare sp).properties.timeout = 600) ∧
    (sp.properties.resourceRequest = "" →
      (prepare sp).properties.resourceRequest = minRequest) ∧
    (sp.properties.clusterID = "" → (prepare sp).properties.clusterID = localClusterID) ∧
    (prepare baseSpec).properties.timeout = 600 ∧
    (prepare baseSpec).properties.clusterID = localClusterID ∧
    (prepare baseSpec).properties.resourceRequest = minRequest ∧
    (prepare sp).plugin = sp.plugin ∧
    (prepare sp).properties.nameSpace = sp.properties.nameSpace ∧
    (prepare sp).properties.registries = sp.properties.registries ∧
    (prepare sp).properties.customLabels = sp.properties.customLabels ∧
    (prepare sp).properties.customAnnotations = sp.properties.customAnnotations ∧
    (prepare sp).properties.resReqSpec = sp.properties.resReqSpec := by
  rw [prepare_eq]
  refine ⟨?_, ?_, ?_, by decide, by decide, by decide, rfl, rfl, rfl, rfl, rfl, rfl⟩ <;>
    intro h <;> simp [h]

/-- Witness for C2 at the concrete scenario spec. -/
theorem c2_prepare_defaults_witness :
    (prepare baseSpec).properties.timeout = 600 ∧
    (prepare baseSpec).properties.resourceRequest = minRequest ∧
    (prepare baseSpec).properties.clusterID = localClusterID :=
  ⟨(c2_prepare_defaults baseSpec).1 (by decide),
   (c2_prepare_defaults baseSpec).2.1 (by decide),
   (c2_prepare_defaults baseSpec).2.2.1 (by decide)⟩

/-- C6: run computes the namespace deterministically from the cluster ID of
the spec it is given (the post-prepare spec inside Run): the configured
namespace on the local cluster, the fixed attached-cluster namespace on any
other cluster; this holds on every path through run. -/
theorem c6_run_namespace (env : Env) (s : CtlState) :
    (runStep env s).1.jobTaskSpec.properties.nameSpace = runNamespace env s := by
  simp only [runStep]
  repeat' split
  all_goals simp [logError]

/-- C7: SaveInfo builds a JobInfo whose duration is EndTime minus
StartTime, whose status is the string form of the current status, and whose
remaining fields are copied from the job and the workflow context; the
record does not depend on the job error, hence not on whether harvesting
failed. -/
theorem c7_saveinfo (s : CtlState) :
    (SaveInfo s).duration = s.job.endTime - s.job.startTime ∧
    (SaveInfo s).status = statusString s.job.status ∧
    (SaveInfo s).type = s.job.jobType ∧
    (SaveInfo s).workflowName = s.wfCtx.workflowName ∧
    (SaveInfo s).workflowDisplayName = s.wfCtx.workflowDisplayName ∧
    (SaveInfo s).taskID = s.wfCtx.taskID ∧
    (SaveInfo s).productName = s.wfCtx.projectName ∧
    (SaveInfo s).startTime = s.job.startTime ∧
    (SaveInfo s).endTime = s.job.endTime ∧
    ∀ msg, SaveInfo { s with job.error := msg } = SaveInfo s :=
  ⟨rfl, rfl, rfl, rfl, rfl, rfl, rfl, rfl, rfl, fun _ => rfl⟩

/-- C8: prepare is idempotent: a second application changes nothing. -/
theorem c8_prepare_idempotent (sp : JobTaskPluginSpec) :
    prepare (prepare sp) = prepare sp := by
  rw [prepare_eq sp, prepare_eq]
  by_cases h1 : sp.properties.timeout ≤ 0 <;>
    by_cases h2 : sp.properties.resourceRequest = "" <;>
      by_cases h3 : sp.properties.clusterID = "" <;>
        simp [h1, h2, h3, minRequest, localClusterID]

/-- C9: when the type-erased payload does not decode into the plugin spec
shape, NewPluginsJobCtl as written still returns a constructed controller
whose spec (and the replaced job.Spec) is the zero-valued plugin spec,
whereas the constructor the spec describes fails with a typed error. -/
theorem c9_new_ctl (payload : ErasedSpec) (e : String)
    (h : decodePluginSpec payload = Except.error e) :
    newPluginsJobCtl payload =
      { jobSpecAfter := zeroPluginSpec, ctlJobTaskSpec := zeroPluginSpec } ∧
    newPluginsJobCtlSpecced payload = Except.error e := by
  unfold newPluginsJobCtl newPluginsJobCtlSpecced
  rw [h]
  exact ⟨rfl, rfl⟩

/-- Witness for C9 at a concrete non-decodable payload. -/
theorem c9_new_ctl_witness :
    newPluginsJobCtl (ErasedSpec.foreign 0) =
      { jobSpecAfter := zeroPluginSpec, ctlJobTaskSpec := zeroPluginSpec } ∧
    newPluginsJobCtlSpecced (ErasedSpec.foreign 0) =
      Except.error "cannot decode job spec" :=
  c9_new_ctl (ErasedSpec.foreign 0) "cannot decode job spec" rfl

/-- C10: when every CustomLabels and CustomAnnotations value is a string,
the map construction is total and yields exactly the Go-map insertion of
those pairs; a non-string value reaches the failed type assertion, so run
panics on a concrete state carrying one. -/
theorem c10_custom_maps (l : List KV)
    (h : ∀ kv ∈ l, ∃ str, kv.value = GoValue.str str) :
    buildStringMap l = some (stringMapOf l) ∧
    buildStringMap [{ key := "team", value := GoValue.other 0 }] = none ∧
    (runStep okEnv badLabelState).2 = RunOutcome.panicked := by
  refine ⟨?_, rfl, by decide⟩
  unfold buildStringMap stringMapOf
  exact foldStringMap_total l h []

/-- Witness for C10 at a concrete all-string list. -/
theorem c10_custom_maps_witness :
    buildStringMap [{ key := "app", value := GoValue.str "web" }] =
      some (stringMapOf [{ key := "app", value := GoValue.str "web" }]) :=
  (c10_custom_maps [{ key := "app", value := GoValue.str "web" }]
    (by
      intro kv hkv
      rw [List.mem_singleton] at hkv
      subst hkv
      exact ⟨"web", rfl⟩)).1

end Zadig
